import Mathlib

/-!
Verification of the data-preparation and reactive-aggregation pipeline of
`dashbouw.py` (Amsterdam housing-construction dashboard).

The Python source is shallowly embedded: pandas frames become lists of
records, numeric columns become `Option Int` (pandas `NaN` is `none`),
timestamps are represented by their year (the only component the program
ever reads) as `Option Int`, coordinates are exact rationals, and the
pyproj transformer is an explicit function parameter returning `Option`
to model per-row failure.  pandas groupby sorts its keys; string keys are
compared by code-point lexicographic order, modelled on character lists.
`Series.sort_values` is modelled as a stable sort applied to the
key-sorted series produced by groupby.
-/

namespace Dashbouw

/-! ### Python `str.split` on a one-character separator, over character lists -/

/-- Model of Python `s.split(sep)` for a single-character separator: the
list of (possibly empty) chunks between occurrences of `sep`. -/
def pysplit (sep : Char) : List Char → List (List Char)
  | [] => [[]]
  | c :: cs =>
      match pysplit sep cs with
      | [] => [[]]
      | h :: t => if c = sep then [] :: h :: t else (c :: h) :: t

/-- Embedding of the source's short-name lambda
`x.split('/')[1].split('-')[0] if '/' in x else x` over character lists. -/
def projectnaamAfkorting (x : List Char) : List Char :=
  if '/' ∈ x then ((pysplit '-' ((pysplit '/' x).getD 1 [])).getD 0 []) else x

/-- Claim C9 taken literally (definition following the spec's words, for
comparison): the substring after the first slash and before the dash that
follows it; otherwise the name unchanged. -/
def claimShortName (x : List Char) : List Char :=
  if '/' ∈ x then ((x.dropWhile (fun c => !decide (c = '/'))).tail).takeWhile (fun c => !decide (c = '-'))
  else x

/-- Amended C9 rule: the segment strictly between the first and the second
slash (to the end if there is no second slash), truncated before its first
dash; otherwise the name unchanged. -/
def amendedShortName (x : List Char) : List Char :=
  if '/' ∈ x then
    ((((x.dropWhile (fun c => !decide (c = '/'))).tail).takeWhile (fun c => !decide (c = '/'))).takeWhile
      (fun c => !decide (c = '-')))
  else x

/-! ### List utilities: first-occurrence dedup and a stable insertion sort -/

/-- Duplicate removal keeping the first occurrence of each element, in
first-appearance order (pandas group keys before sorting, `nunique`). -/
def firstDedup [DecidableEq α] : List α → List α
  | [] => []
  | a :: l => a :: (firstDedup l).filter (fun b => !decide (b = a))

/-- Stable insertion of `a` into `l`: `a` lands before the first element it
compares `le` to. -/
def insertLe (le : α → α → Bool) (a : α) : List α → List α
  | [] => [a]
  | b :: l => if le a b then a :: b :: l else b :: insertLe le a l

/-- Stable insertion sort by a boolean comparator; models pandas
`sort_values` (a stable sort for our purposes) and sorted groupby keys. -/
def sortLe (le : α → α → Bool) : List α → List α
  | [] => []
  | a :: l => insertLe le a (sortLe le l)

/-- Code-point lexicographic order on character lists: the order Python uses
to sort the string keys of a groupby. -/
def charListLe : List Char → List Char → Bool
  | [], _ => true
  | _ :: _, [] => false
  | a :: as, b :: bs => if a = b then charListLe as bs else decide (a < b)

/-- String comparison via the underlying character list. -/
def strLeB (a b : String) : Bool := charListLe a.data b.data

/-- Lexicographic comparison on string pairs (two-level groupby keys). -/
def pairLeB (a b : String × String) : Bool :=
  if a.1 = b.1 then strLeB a.2 b.2 else strLeB a.1 b.1

/-- Ascending order on integers as a boolean comparator. -/
def intLeB (a b : Int) : Bool := decide (a ≤ b)

/-! ### Data model -/

/-- One of the three fixed housing-category columns of the source frame. -/
inductive Woningtype where
  | socialeHuurZelfstPerm
  | middeldureHuur
  | vrijeSectorKoop
  deriving DecidableEq

/-- The source's `woningtypes` list (the three wide count columns). -/
def woningtypes : List Woningtype :=
  [.socialeHuurZelfstPerm, .middeldureHuur, .vrijeSectorKoop]

/-- The source's `label_map` from column name to display label. -/
def label_map : Woningtype → String
  | .socialeHuurZelfstPerm => "Sociale Huur"
  | .middeldureHuur => "Middeldure Huur"
  | .vrijeSectorKoop => "Vrije Sector Koop"

/-- One raw record after `pd.json_normalize` and `safe_load`: the geometry
field is `none` when the JSON parse failed or the value was null, numeric
columns are `none` when `pd.to_numeric` coerced them to `NaN`, and the
planned start date is represented by its parsed year (`none` when
`pd.to_datetime` coerced it to `NaT`). -/
structure RawRecord where
  geometrie : Option (List (List (List (ℚ × ℚ))))
  socialeHuurZelfstPerm : Option Int
  middeldureHuur : Option Int
  vrijeSectorKoop : Option Int
  startBouwGepland : Option Int
  projectnaamAfkorting : List Char
  stadsdeelNaam : String
  wijkNaam : String
  buurtNaam : String
  deriving DecidableEq

/-- Embedding of `extract_centroid`: mean of the x- and y-coordinates of the
first polygon's first ring; any failure (missing geometry, empty polygon
list, empty ring) yields null coordinates. -/
def extract_centroid (mp : Option (List (List (List (ℚ × ℚ))))) :
    Option ℚ × Option ℚ :=
  match mp with
  | none => (none, none)
  | some [] => (none, none)
  | some ([] :: _) => (none, none)
  | some (([] :: _) :: _) => (none, none)
  | some ((ring :: _) :: _) =>
      (some (((ring.map Prod.fst).sum) / (ring.length : ℚ)),
       some (((ring.map Prod.snd).sum) / (ring.length : ℚ)))

/-- Embedding of `convert_rd_to_wgs84` relative to a transformer `t` (the
pyproj EPSG:28992 to EPSG:4326 transform, an external collaborator):
null inputs or a transform failure yield null coordinates for the row. -/
def convert_rd_to_wgs84 (t : ℚ × ℚ → Option (ℚ × ℚ)) :
    Option ℚ × Option ℚ → Option ℚ × Option ℚ
  | (some x, some y) =>
      match t (x, y) with
      | some p => (some p.1, some p.2)
      | none => (none, none)
  | _ => (none, none)

/-- One row of the normalized frame after the `dropna(subset=['lon','lat'])`
line: coordinates are guaranteed present. -/
structure NormRecord where
  lon : ℚ
  lat : ℚ
  socialeHuurZelfstPerm : Option Int
  middeldureHuur : Option Int
  vrijeSectorKoop : Option Int
  startBouwGepland : Option Int
  projectnaamAfkorting : List Char
  stadsdeelNaam : String
  wijkNaam : String
  buurtNaam : String
  deriving DecidableEq

/-- The coordinates a raw record ends up with after centroid extraction and
reprojection (the `lon`/`lat` columns just before the `dropna`). -/
def pipelineCoords (t : ℚ × ℚ → Option (ℚ × ℚ)) (r : RawRecord) :
    Option ℚ × Option ℚ :=
  convert_rd_to_wgs84 t (extract_centroid r.geometrie)

/-- Field normalization plus the coordinate `dropna` for a single record:
the record survives exactly when both coordinates are present; the
short-name lambda is applied to the project name; all other fields are
carried through possibly-null. -/
def normalizeRecord (t : ℚ × ℚ → Option (ℚ × ℚ)) (r : RawRecord) :
    Option NormRecord :=
  match pipelineCoords t r with
  | (some lon, some lat) =>
      some ⟨lon, lat, r.socialeHuurZelfstPerm, r.middeldureHuur,
            r.vrijeSectorKoop, r.startBouwGepland,
            projectnaamAfkorting r.projectnaamAfkorting,
            r.stadsdeelNaam, r.wijkNaam, r.buurtNaam⟩
  | _ => none

/-- The whole startup preparation: Geometry Normalizer, Coordinate
Reprojector, Field Normalizer and the coordinate-presence filter applied to
a fetched batch. -/
def prepare (t : ℚ × ℚ → Option (ℚ × ℚ)) (raws : List RawRecord) :
    List NormRecord :=
  raws.filterMap (normalizeRecord t)

/-! ### Startup fetch -/

/-- Outcome of the module-level `requests.get` / `response.json()` /
embedded-key lookup sequence: either a record batch, or the exception the
unguarded code raises (network or auth failure in `requests.get`, or a
malformed body in `.json()` or the key lookups). -/
inductive FetchOutcome where
  | ok (records : List RawRecord)
  | requestError (msg : String)
  | bodyError (msg : String)
  deriving DecidableEq

/-- Embedding of the module-level fetch (source lines 15-21): there is no
try/except around it, so any failure propagates as the raised exception. -/
def startup_fetch : FetchOutcome → Except String (List RawRecord)
  | .ok rs => .ok rs
  | .requestError m => .error m
  | .bodyError m => .error m

/-- Startup of the process: fetch, then the preparation pipeline; a fetch
exception propagates out of the whole startup. -/
def startup (t : ℚ × ℚ → Option (ℚ × ℚ)) (o : FetchOutcome) :
    Except String (List NormRecord) :=
  match startup_fetch o with
  | .ok rs => .ok (prepare t rs)
  | .error m => .error m

/-! ### Reactive aggregator (`update_all_graphs`) -/

/-- Access to the wide count column named by a `Woningtype`. -/
def NormRecord.typeCount (r : NormRecord) : Woningtype → Option Int
  | .socialeHuurZelfstPerm => r.socialeHuurZelfstPerm
  | .middeldureHuur => r.middeldureHuur
  | .vrijeSectorKoop => r.vrijeSectorKoop

/-- Embedding of the year filter
`df[df["startBouwGepland"].dt.year <= selected_year]`: the comparison with
a `NaT` year is false in pandas, so rows with a null date are dropped. -/
def filtered_df (df : List NormRecord) (selected_year : Int) : List NormRecord :=
  df.filter (fun r =>
    match r.startBouwGepland with
    | some j => decide (j ≤ selected_year)
    | none => false)

/-- One long-form row produced by `melt`: the id columns, the melted
variable (the housing-type column name) and its value. -/
structure LongRow where
  lat : ℚ
  lon : ℚ
  projectnaamAfkorting : List Char
  stadsdeelNaam : String
  wijkNaam : String
  buurtNaam : String
  startBouwGepland : Option Int
  var : Woningtype
  value : Option Int
  deriving DecidableEq

/-- Embedding of `filtered_df.melt(id_vars=..., value_vars=selected_types)`:
one block of rows per value variable, blocks in `value_vars` order, rows in
frame order inside a block. -/
def melt (rows : List NormRecord) (value_vars : List Woningtype) : List LongRow :=
  value_vars.flatMap (fun w => rows.map (fun r =>
    ⟨r.lat, r.lon, r.projectnaamAfkorting, r.stadsdeelNaam, r.wijkNaam,
     r.buurtNaam, r.startBouwGepland, w, r.typeCount w⟩))

/-- The long-form set actually used by every aggregate: year filter, melt,
then the positive-value filter `melted[melted["value"] > 0]` (a `NaN` value
compares false and is dropped). -/
def melted_pos (df : List NormRecord) (sel : List Woningtype) (y : Int) :
    List LongRow :=
  (melt (filtered_df df y) sel).filter (fun row =>
    match row.value with
    | some v => decide (0 < v)
    | none => false)

/-- Generic embedding of `frame.groupby(keys)[value].sum().reset_index()`:
distinct keys in sorted order (pandas sorts group keys), each paired with
the sum of its values. -/
def groupbySum [DecidableEq κ] (le : κ → κ → Bool) (pairs : List (κ × Int)) :
    List (κ × Int) :=
  (sortLe le (firstDedup (pairs.map Prod.fst))).map
    (fun k => (k, ((pairs.filter (fun p => decide (p.1 = k))).map Prod.snd).sum))

/-- Embedding of the pie/bar aggregate
`melted.groupby(['wijkNaam', 'woningtype_label'])['value'].sum()`. -/
def wijk_data (m : List LongRow) : List ((String × String) × Int) :=
  groupbySum pairLeB (m.map (fun row => ((row.wijkNaam, label_map row.var), row.value.getD 0)))

/-- Distinct start years, sorted ascending, of a record list (the group keys
of the line chart's `groupby('jaar')`). -/
def jaren (rows : List NormRecord) : List Int :=
  sortLe intLeB (firstDedup (rows.filterMap (fun r => r.startBouwGepland)))

/-- Embedding of the line-chart aggregate: drop rows with a null date from
the year-filtered frame, then `groupby('jaar')[selected_types].sum()` — one
row per distinct year present, with one (possibly zero) sum per selected
column; a pandas column sum skips `NaN`. -/
def grouped (df : List NormRecord) (sel : List Woningtype) (y : Int) :
    List (Int × List Int) :=
  (jaren ((filtered_df df y).filter (fun r => r.startBouwGepland.isSome))).map
    (fun j =>
      (j, sel.map (fun w =>
        ((((filtered_df df y).filter (fun r => r.startBouwGepland.isSome)).filter
            (fun r => decide (r.startBouwGepland = some j))).map
          (fun r => (r.typeCount w).getD 0)).sum)))

/-- Embedding of
`melted.groupby(['buurtNaam', 'woningtype_label'])['value'].sum()`. -/
def buurt_type_data (m : List LongRow) : List ((String × String) × Int) :=
  groupbySum pairLeB (m.map (fun row => ((row.buurtNaam, label_map row.var), row.value.getD 0)))

/-- Grand total per neighborhood:
`buurt_type_data.groupby('buurtNaam')['value'].sum()`. -/
def grand_totals (m : List LongRow) : List (String × Int) :=
  groupbySum strLeB ((buurt_type_data m).map (fun p => (p.1.1, p.2)))

/-- Descending order on the value component, as a boolean comparator
(`sort_values(ascending=False)`). -/
def byValueDesc (a b : String × Int) : Bool := decide (b.2 ≤ a.2)

/-- The neighborhood series sorted by grand total descending and truncated:
`.sort_values(ascending=False).head(10)`. -/
def top_pairs (m : List LongRow) : List (String × Int) :=
  (sortLe byValueDesc (grand_totals m)).take 10

/-- The source's `top_buurten` list (`.index.tolist()`). -/
def top_buurten (m : List LongRow) : List String :=
  (top_pairs m).map Prod.fst

/-- The source's `top10_data`:
`buurt_type_data[buurt_type_data['buurtNaam'].isin(top_buurten)]`. -/
def top10_data (m : List LongRow) : List ((String × String) × Int) :=
  (buurt_type_data m).filter (fun p => decide (p.1.1 ∈ top_buurten m))

/-- Truncation of a rational toward zero, the behavior of Python `int()` on
a float. -/
def ratTrunc (q : ℚ) : Int := q.num / (q.den : Int)

/-- KPI `totaal_woningen = int(melted["value"].sum())`. -/
def kpi_totaal (m : List LongRow) : Int := (m.map (fun r => r.value.getD 0)).sum

/-- KPI `aantal_projecten = melted["projectnaamAfkorting"].nunique()`. -/
def kpi_projecten (m : List LongRow) : Nat :=
  (firstDedup (m.map (fun r => r.projectnaamAfkorting))).length

/-- KPI `unieke_buurten = melted["buurtNaam"].nunique()`. -/
def kpi_buurten (m : List LongRow) : Nat :=
  (firstDedup (m.map (fun r => r.buurtNaam))).length

/-- KPI `gemiddeld_jaar = int(melted["startBouwGepland"].dt.year.mean())`:
the mean skips null dates; on an empty series it is `NaN` and the `int()`
conversion raises, modelled as `none`. -/
def mean_year (m : List LongRow) : Option Int :=
  match m.filterMap (fun r => r.startBouwGepland) with
  | [] => none
  | j :: js =>
      some (ratTrunc ((((j :: js).sum : Int) : ℚ) / (((j :: js).length : Int) : ℚ)))

/-- The map-mode radio input. -/
inductive MapType where
  | scatter
  | heatmap
  deriving DecidableEq

/-- The data behind the nine callback outputs of a successful invocation
(figure styling is presentation and out of scope; each figure is
represented by the frame it is drawn from). -/
structure Outputs where
  map_type : MapType
  geo_rows : List LongRow
  pie_data : List ((String × String) × Int)
  bar_data : List ((String × String) × Int)
  line_data : List (Int × List Int)
  top10_rows : List ((String × String) × Int)
  totaal : Int
  projecten : Nat
  buurten : Nat
  gemjaar : Int
  deriving DecidableEq

/-- Observable result of one callback invocation: the early
`dash.no_update` return, a raised exception, or the nine outputs. -/
inductive CallbackResult where
  | noUpdate
  | raised (msg : String)
  | outputs (o : Outputs)
  deriving DecidableEq

/-- Embedding of `update_all_graphs`: empty category selection returns the
no-update sentinel; otherwise the aggregates are recomputed from scratch,
and the `int()` of a `NaN` mean year raises. -/
def update_all_graphs (df : List NormRecord) (map_type : MapType)
    (selected_types : List Woningtype) (selected_year : Int) : CallbackResult :=
  if selected_types.isEmpty then .noUpdate
  else
    match mean_year (melted_pos df selected_types selected_year) with
    | none => .raised "cannot convert float NaN to integer"
    | some gj =>
        .outputs ⟨map_type,
          melted_pos df selected_types selected_year,
          wijk_data (melted_pos df selected_types selected_year),
          wijk_data (melted_pos df selected_types selected_year),
          grouped df selected_types selected_year,
          top10_data (melted_pos df selected_types selected_year),
          kpi_totaal (melted_pos df selected_types selected_year),
          kpi_projecten (melted_pos df selected_types selected_year),
          kpi_buurten (melted_pos df selected_types selected_year),
          gj⟩

/-- One callback invocation with the module-level normalized frame made
explicit: the callback reads the global `df` (copying before filtering) and
never reassigns it, so the state is returned unchanged. -/
def update_invoke (st : List NormRecord) (mt : MapType)
    (sel : List Woningtype) (y : Int) : CallbackResult × List NormRecord :=
  (update_all_graphs st mt sel y, st)

/-- Modelled from the claim wording of C7, for comparison: neighborhoods
ranked by grand total descending with ties broken by stable input order
(first appearance in the long-form set), truncated to ten. -/
def claim_top10 (m : List LongRow) : List String :=
  ((sortLe byValueDesc
    ((firstDedup (m.map (fun r => r.buurtNaam))).map (fun b =>
      (b, ((m.filter (fun r => decide (r.buurtNaam = b))).map
        (fun r => r.value.getD 0)).sum)))).take 10).map Prod.fst

/-! ### Concrete datasets for counterexamples and witnesses -/

/-- Shorthand for a normalized record with fixed coordinates and area names
(all the claims under test are insensitive to these). -/
def mkRec (naam : String) (jaar : Option Int) (sh mh vk : Option Int)
    (buurt : String) : NormRecord :=
  ⟨0, 0, sh, mh, vk, jaar, naam.data, "Centrum", "W1", buurt⟩

/-- One record with a null planned start date. -/
def df_null : List NormRecord := [mkRec "n1" none (some 3) none none "b"]

/-- One record whose three counts are all zero: the positive-count filter
leaves an empty long-form set. -/
def dfZ : List NormRecord :=
  [mkRec "z1" (some 2020) (some 0) (some 0) (some 0) "b"]

/-- Two records with start years 2020 and 2022 and no record in 2021. -/
def df_gap : List NormRecord :=
  [mkRec "g1" (some 2020) (some 5) none none "b1",
   mkRec "g2" (some 2022) (some 7) none none "b2"]

/-- Eleven records in eleven distinct neighborhoods: nine dominant totals
and a tie at the top-10 boundary between neighborhood `zz` (first in input
order) and `aa` (last in input order). -/
def df0 : List NormRecord :=
  [mkRec "p00" (some 2024) (some 1) none none "zz",
   mkRec "p01" (some 2024) (some 10) none none "k01",
   mkRec "p02" (some 2024) (some 10) none none "k02",
   mkRec "p03" (some 2024) (some 10) none none "k03",
   mkRec "p04" (some 2024) (some 10) none none "k04",
   mkRec "p05" (some 2024) (some 10) none none "k05",
   mkRec "p06" (some 2024) (some 10) none none "k06",
   mkRec "p07" (some 2024) (some 10) none none "k07",
   mkRec "p08" (some 2024) (some 10) none none "k08",
   mkRec "p09" (some 2024) (some 10) none none "k09",
   mkRec "p10" (some 2024) (some 1) none none "aa"]

/-- The long-form set of `df0` under a social-rent-only selection. -/
def M0 : List LongRow := melted_pos df0 [Woningtype.socialeHuurZelfstPerm] 2030

/-- One record with one positive count, for witnesses. -/
def df5 : List NormRecord := [mkRec "w1" (some 2021) (some 4) none none "b"]

/-- The long-form row `df5` produces for its social-rent count. -/
def row5 : LongRow :=
  ⟨0, 0, "w1".data, "Centrum", "W1", "b", some 2021,
   .socialeHuurZelfstPerm, some 4⟩

/-! ### Infrastructure lemmas -/

theorem pysplit_ne_nil (sep : Char) (s : List Char) : pysplit sep s ≠ [] := by
  cases s with
  | nil => simp [pysplit]
  | cons c cs =>
      simp only [pysplit]
      cases h : pysplit sep cs with
      | nil => simp
      | cons h t =>
          by_cases hc : c = sep <;> simp [hc]

theorem pysplit_head (sep : Char) (s : List Char) :
    (pysplit sep s).getD 0 [] = s.takeWhile (fun c => !decide (c = sep)) := by
  induction s with
  | nil => simp [pysplit]
  | cons c cs ih =>
      simp only [pysplit]
      cases h : pysplit sep cs with
      | nil => exact absurd h (pysplit_ne_nil sep cs)
      | cons hd tl =>
          by_cases hc : c = sep
          · simp [hc, List.takeWhile]
          · rw [h] at ih
            have ih' : hd = List.takeWhile (fun c => !decide (c = sep)) cs := by simpa using ih
            simp [hc, List.takeWhile, ih']

theorem pysplit_second (sep : Char) (s : List Char) (hs : sep ∈ s) :
    (pysplit sep s).getD 1 [] =
      ((s.dropWhile (fun c => !decide (c = sep))).tail).takeWhile (fun c => !decide (c = sep)) := by
  induction s with
  | nil => cases hs
  | cons c cs ih =>
      simp only [pysplit]
      cases h : pysplit sep cs with
      | nil => exact absurd h (pysplit_ne_nil sep cs)
      | cons hd tl =>
          by_cases hc : c = sep
          · subst hc
            simp [List.dropWhile]
            have hh := pysplit_head c cs
            rw [h] at hh
            simpa using hh
          · have hmem : sep ∈ cs := by
              cases hs with
              | head => exact absurd rfl hc
              | tail _ hm => exact hm
            rw [h] at ih
            simp only [hc, if_neg, List.dropWhile]
            have hne : ¬ (c = sep) := hc
            simp [hne]
            simpa [List.dropWhile, hne] using ih hmem

theorem mem_firstDedup [DecidableEq α] (a : α) (l : List α) :
    a ∈ firstDedup l ↔ a ∈ l := by
  induction l with
  | nil => simp [firstDedup]
  | cons b l ih =>
      by_cases hab : a = b
      · simp [firstDedup, hab]
      · simp [firstDedup, hab, List.mem_filter, ih]

theorem nodup_firstDedup [DecidableEq α] (l : List α) : (firstDedup l).Nodup := by
  induction l with
  | nil => simp [firstDedup]
  | cons b l ih =>
      refine List.Nodup.cons ?_ (List.Nodup.filter _ ih)
      intro hmem
      rcases List.mem_filter.mp hmem with ⟨-, hne⟩
      simp at hne

theorem perm_insertLe (le : α → α → Bool) (a : α) (l : List α) :
    (insertLe le a l).Perm (a :: l) := by
  induction l with
  | nil => simp [insertLe]
  | cons b l ih =>
      simp only [insertLe]
      by_cases h : le a b
      · simp [h]
      · rw [if_neg h]
        exact (ih.cons b).trans (List.Perm.swap a b l)

theorem perm_sortLe (le : α → α → Bool) (l : List α) : (sortLe le l).Perm l := by
  induction l with
  | nil => simp [sortLe]
  | cons a l ih =>
      exact (perm_insertLe le a (sortLe le l)).trans (ih.cons a)

theorem mem_sortLe (le : α → α → Bool) (a : α) (l : List α) :
    a ∈ sortLe le l ↔ a ∈ l :=
  (perm_sortLe le l).mem_iff

theorem nodup_sortLe (le : α → α → Bool) (l : List α) (h : l.Nodup) :
    (sortLe le l).Nodup :=
  (perm_sortLe le l).symm.nodup h

theorem pairwise_insertLe (le : α → α → Bool)
    (htot : ∀ a b, le a b = true ∨ le b a = true)
    (htrans : ∀ a b c, le a b = true → le b c = true → le a c = true)
    (a : α) (l : List α) (h : l.Pairwise (fun x y => le x y = true)) :
    (insertLe le a l).Pairwise (fun x y => le x y = true) := by
  induction l with
  | nil => simp [insertLe]
  | cons b l ih =>
      obtain ⟨hb, hl⟩ := List.pairwise_cons.mp h
      simp only [insertLe]
      by_cases hab : le a b
      · simp only [if_pos hab]
        refine List.Pairwise.cons ?_ (List.Pairwise.cons hb hl)
        intro x hx
        cases hx with
        | head => exact hab
        | tail _ hx => exact htrans a b x hab (hb x hx)
      · simp only [if_neg hab]
        refine List.Pairwise.cons ?_ (ih hl)
        intro x hx
        rcases List.mem_cons.mp ((perm_insertLe le a l).mem_iff.mp hx) with hxa | hxl
        · subst hxa
          rcases htot x b with h1 | h1
          · exact absurd h1 hab
          · exact h1
        · exact hb x hxl

theorem pairwise_sortLe (le : α → α → Bool)
    (htot : ∀ a b, le a b = true ∨ le b a = true)
    (htrans : ∀ a b c, le a b = true → le b c = true → le a c = true)
    (l : List α) : (sortLe le l).Pairwise (fun x y => le x y = true) := by
  induction l with
  | nil => simp [sortLe]
  | cons a l ih =>
      exact pairwise_insertLe le htot htrans a (sortLe le l) ih

theorem groupbySum_fst [DecidableEq κ] (le : κ → κ → Bool) (pairs : List (κ × Int)) :
    (groupbySum le pairs).map Prod.fst = sortLe le (firstDedup (pairs.map Prod.fst)) := by
  simp [groupbySum, List.map_map, Function.comp_def]

theorem nodup_groupbySum_fst [DecidableEq κ] (le : κ → κ → Bool)
    (pairs : List (κ × Int)) : ((groupbySum le pairs).map Prod.fst).Nodup := by
  rw [groupbySum_fst]
  exact nodup_sortLe _ _ (nodup_firstDedup _)

theorem eq_of_fst_nodup {β : Type} (l : List (α × β))
    (hn : (l.map Prod.fst).Nodup) {p q : α × β}
    (hp : p ∈ l) (hq : q ∈ l) (h1 : p.1 = q.1) : p = q := by
  induction l with
  | nil => cases hp
  | cons a l ih =>
      have hcons : (a.1 :: l.map Prod.fst).Nodup := by simpa using hn
      have hn1 : a.1 ∉ l.map Prod.fst := (List.nodup_cons.mp hcons).1
      have hn2 : (l.map Prod.fst).Nodup := (List.nodup_cons.mp hcons).2
      rcases List.mem_cons.mp hp with hp1 | hp1 <;>
        rcases List.mem_cons.mp hq with hq1 | hq1
      · rw [hp1, hq1]
      · exfalso
        apply hn1
        rw [hp1] at h1
        rw [h1]
        exact List.mem_map_of_mem Prod.fst hq1
      · exfalso
        apply hn1
        rw [hq1] at h1
        rw [← h1]
        exact List.mem_map_of_mem Prod.fst hp1
      · exact ih hn2 hp1 hq1

theorem filterMap_start_filter_isSome (rows : List NormRecord) :
    ((rows.filter (fun r => r.startBouwGepland.isSome)).filterMap
      (fun r => r.startBouwGepland))
      = rows.filterMap (fun r => r.startBouwGepland) := by
  induction rows with
  | nil => rfl
  | cons r rows ih =>
      cases h : r.startBouwGepland with
      | none => simp [List.filter, List.filterMap_cons, h, ih]
      | some j => simp [List.filter, List.filterMap_cons, h, ih]

theorem length_filterMap_eq_countP {β : Type} (f : α → Option β) (l : List α) :
    (l.filterMap f).length = l.countP (fun a => (f a).isSome) := by
  induction l with
  | nil => rfl
  | cons a l ih =>
      cases h : f a with
      | none => simp [List.filterMap_cons, List.countP_cons, h, ih]
      | some b => simp [List.filterMap_cons, List.countP_cons, h, ih]

theorem filtered_df_isSome (df : List NormRecord) (y : Int) (r : NormRecord)
    (h : r ∈ filtered_df df y) : r.startBouwGepland.isSome = true := by
  rcases List.mem_filter.mp h with ⟨-, hb⟩
  cases hs : r.startBouwGepland with
  | none => rw [hs] at hb; simp at hb
  | some j => rfl

theorem melt_mem_start (rows : List NormRecord) (vars : List Woningtype)
    (row : LongRow) (h : row ∈ melt rows vars) :
    ∃ r ∈ rows, row.startBouwGepland = r.startBouwGepland := by
  rcases List.mem_flatMap.mp h with ⟨w, hw, hmem⟩
  rcases List.mem_map.mp hmem with ⟨r, hr, heq⟩
  exact ⟨r, hr, by rw [← heq]⟩

/-! ### Claim theorems -/

/-- C1 (corrected): the year filter retains a normalized record exactly when
its `start_date` is non-null and its year is at most `year_ceiling`; rows
with a null `start_date` are dropped, because the pandas comparison of a
`NaT` year with the slider value is false. -/
theorem c1_year_filter_amended (df : List NormRecord) (y : Int) (r : NormRecord) :
    r ∈ filtered_df df y ↔
      r ∈ df ∧ ∃ j, r.startBouwGepland = some j ∧ j ≤ y := by
  simp only [filtered_df, List.mem_filter]
  constructor
  · rintro ⟨hmem, hb⟩
    refine ⟨hmem, ?_⟩
    cases hj : r.startBouwGepland with
    | none => rw [hj] at hb; simp at hb
    | some j =>
        rw [hj] at hb
        exact ⟨j, rfl, by simpa using hb⟩
  · rintro ⟨hmem, j, hj, hle⟩
    refine ⟨hmem, ?_⟩
    rw [hj]
    simpa using hle

/-- C1 counterexample: a record with a null `start_date` is in the
normalized set but does not pass the year filter, refuting the claim that
null dates pass. -/
theorem c1_counterexample :
    (mkRec "n1" none (some 3) none none "b") ∈ df_null ∧
    (mkRec "n1" none (some 3) none none "b") ∉ filtered_df df_null 2030 := by
  decide

/-- C2 (corrected): an empty category selection returns the framework's
no-update sentinel (prior outputs kept, not an Empty placeholder state);
a non-empty selection whose long-form set is empty after the year and
positive-count filters raises an exception while converting the `NaN` mean
start year to an integer, rather than producing placeholder charts. -/
theorem c2_empty_behavior_amended (df : List NormRecord) (mt : MapType)
    (sel : List Woningtype) (y : Int) :
    (sel = [] → update_all_graphs df mt sel y = .noUpdate) ∧
    (sel ≠ [] → melted_pos df sel y = [] →
      update_all_graphs df mt sel y = .raised "cannot convert float NaN to integer") := by
  constructor
  · intro h
    subst h
    simp [update_all_graphs]
  · intro hne hm
    have hE : sel.isEmpty = false := by
      cases sel with
      | nil => exact absurd rfl hne
      | cons a l => rfl
    simp [update_all_graphs, hE, hm, mean_year]

/-- C2 witness: both degenerate cases exercised on a concrete dataset whose
only record has all-zero counts. -/
theorem c2_witness :
    update_all_graphs dfZ .scatter [] 2030 = .noUpdate ∧
    update_all_graphs dfZ .scatter woningtypes 2030 =
      .raised "cannot convert float NaN to integer" :=
  ⟨(c2_empty_behavior_amended dfZ .scatter [] 2030).1 rfl,
   (c2_empty_behavior_amended dfZ .scatter woningtypes 2030).2
     (by decide) (by decide)⟩

/-- C2 counterexample: on a concrete normalized set whose long-form set is
empty after the filters, the callback raises (the `int()` of a `NaN` mean),
refuting the claimed exception-free Empty placeholder state; the empty
selection yields the no-update sentinel, not an Empty result either. -/
theorem c2_counterexample :
    update_all_graphs dfZ .heatmap woningtypes 2025 =
      .raised "cannot convert float NaN to integer" ∧
    update_all_graphs dfZ .heatmap [] 2025 = .noUpdate := by
  exact ⟨rfl, rfl⟩

/-- C3 (corrected): the startup fetch has no error handling; the program
obtains a normalized set exactly when the fetch succeeds, and any request
or body failure propagates out of the fetch stage as the raised
exception (there is no logging and no degradation to an empty set). -/
theorem c3_fetch_amended (t : ℚ × ℚ → Option (ℚ × ℚ)) (o : FetchOutcome) :
    ((∃ ns, startup t o = .ok ns) ↔ (∃ rs, o = .ok rs)) ∧
    (∀ m, startup t (.requestError m) = .error m) ∧
    (∀ m, startup t (.bodyError m) = .error m) := by
  refine ⟨?_, fun m => rfl, fun m => rfl⟩
  cases o <;> simp [startup, startup_fetch]

/-- C3 counterexample: a concrete connection failure propagates as an error
and does not yield the empty normalized set the claim promises. -/
theorem c3_counterexample :
    startup (fun p => some p) (.requestError "ConnectionError") =
      .error "ConnectionError" ∧
    ∀ ns : List NormRecord,
      startup (fun p => some p) (.requestError "ConnectionError") ≠ .ok ns := by
  constructor
  · rfl
  · intro ns h
    simp [startup, startup_fetch] at h

/-- C5 (confirmed): every row of the long-form set used by the aggregates
and summary statistics has a strictly positive count; zero, negative and
null counts are dropped by the `melted["value"] > 0` filter. -/
theorem c5_positive_count (df : List NormRecord) (sel : List Woningtype)
    (y : Int) (row : LongRow) (h : row ∈ melted_pos df sel y) :
    ∃ v, row.value = some v ∧ 0 < v := by
  rcases List.mem_filter.mp h with ⟨-, hb⟩
  cases hv : row.value with
  | none => rw [hv] at hb; simp at hb
  | some v =>
      rw [hv] at hb
      exact ⟨v, rfl, by simpa using hb⟩

/-- C5 witness: the single long-form row of a concrete dataset carries its
positive count. -/
theorem c5_witness :
    row5 ∈ melted_pos df5 woningtypes 2030 ∧
    ∃ v, row5.value = some v ∧ 0 < v :=
  ⟨by decide, c5_positive_count df5 woningtypes 2030 row5 (by decide)⟩

/-- C6 (confirmed): a raw record is admitted to the normalized set exactly
when both coordinates are non-null after centroid extraction and
reprojection — no other field is consulted — and the prepared set contains
exactly the admitted records. -/
theorem c6_admission (t : ℚ × ℚ → Option (ℚ × ℚ)) (r : RawRecord)
    (raws : List RawRecord) :
    ((normalizeRecord t r).isSome = true ↔
      ((pipelineCoords t r).1.isSome = true ∧
       (pipelineCoords t r).2.isSome = true)) ∧
    (prepare t raws).length =
      raws.countP (fun r0 => (normalizeRecord t r0).isSome) := by
  constructor
  · cases h : pipelineCoords t r with
    | mk a b =>
        cases a <;> cases b <;> simp [normalizeRecord, h]
  · exact length_filterMap_eq_countP (normalizeRecord t) raws

/-- C4 (corrected): the by-year aggregate is not densified; it contains
exactly one row per distinct year actually present (non-null, within the
ceiling) in the year-filtered set, each row carrying one possibly-zero sum
per selected category, and years with no record are simply absent. -/
theorem c4_by_year_amended (df : List NormRecord) (sel : List Woningtype)
    (y : Int) :
    ((grouped df sel y).map Prod.fst).Nodup ∧
    (∀ j : Int, j ∈ (grouped df sel y).map Prod.fst ↔
      j ∈ (filtered_df df y).filterMap (fun r => r.startBouwGepland)) ∧
    (∀ p ∈ grouped df sel y, p.2.length = sel.length) := by
  have hfst : (grouped df sel y).map Prod.fst
      = jaren ((filtered_df df y).filter (fun r => r.startBouwGepland.isSome)) := by
    simp [grouped, List.map_map, Function.comp_def]
  refine ⟨?_, ?_, ?_⟩
  · rw [hfst]
    exact nodup_sortLe _ _ (nodup_firstDedup _)
  · intro j
    rw [hfst]
    unfold jaren
    rw [mem_sortLe, mem_firstDedup, filterMap_start_filter_isSome]
  · intro p hp
    rcases List.mem_map.mp hp with ⟨j, hj, hpe⟩
    rw [← hpe]
    simp

/-- C4 counterexample: with records only in 2020 and 2022 and ceiling 2022,
the long-form set is non-empty, 2021 lies in the claimed interval from the
minimum year of the full normalized set up to the ceiling, yet the by-year
aggregate has no row for 2021. -/
theorem c4_counterexample :
    melted_pos df_gap woningtypes 2022 ≠ [] ∧
    (2020 : Int) ∈ df_gap.filterMap (fun r => r.startBouwGepland) ∧
    (∀ j ∈ df_gap.filterMap (fun r => r.startBouwGepland), (2020 : Int) ≤ j) ∧
    (2020 : Int) ≤ 2021 ∧ (2021 : Int) ≤ 2022 ∧
    (2021 : Int) ∉ (grouped df_gap woningtypes 2022).map Prod.fst := by
  decide

/-- C4 witness: the 2020 row of the gap dataset's by-year aggregate has one
sum per selected category. -/
theorem c4_witness :
    ((2020 : Int), [(5 : Int), 0, 0]) ∈ grouped df_gap woningtypes 2022 ∧
    ([(5 : Int), 0, 0] : List Int).length = woningtypes.length :=
  ⟨by decide,
   (c4_by_year_amended df_gap woningtypes 2022).2.2
     ((2020 : Int), [(5 : Int), 0, 0]) (by decide)⟩

/-- C8 (confirmed): with the module-level normalized frame made an explicit
input-and-output, one invocation of the aggregator returns that state
unchanged, and re-invoking it on the returned state with the same filter
inputs yields the identical result — it is a pure function of the
normalized set and the filter state, with no cross-call state. -/
theorem c8_pure (st : List NormRecord) (mt : MapType)
    (sel : List Woningtype) (y : Int) :
    (update_invoke st mt sel y).2 = st ∧
    (update_invoke st mt sel y).1 =
      (update_invoke (update_invoke st mt sel y).2 mt sel y).1 :=
  ⟨rfl, rfl⟩

/-- C9 (corrected): the derived short name is the segment strictly between
the first and second slash (to the end when there is no second slash),
truncated before its first dash; for names whose tail contains another
slash this differs from the claim's reading. -/
theorem c9_short_name_amended (x : List Char) :
    projectnaamAfkorting x = amendedShortName x := by
  unfold projectnaamAfkorting amendedShortName
  by_cases hx : '/' ∈ x
  · rw [if_pos hx, if_pos hx, pysplit_head, pysplit_second '/' x hx]
  · rw [if_neg hx, if_neg hx]

/-- C9 counterexample: on `"a/b/c-d"` the code yields `"b"` (the segment
between the two slashes), while the claim's substring after the first slash
and before the following dash is `"b/c"`. -/
theorem c9_counterexample :
    projectnaamAfkorting ("a/b/c-d".data) ≠ claimShortName ("a/b/c-d".data) ∧
    projectnaamAfkorting ("a/b/c-d".data) = "b".data ∧
    claimShortName ("a/b/c-d".data) = "b/c".data := by
  decide

/-- C10 (confirmed): every long-form row has a non-null `start_date`
(the year filter discards null dates before the reshape), and therefore the
mean-start-year statistic is well defined whenever the long-form set is
non-empty. -/
theorem c10_dates_nonnull (df : List NormRecord) (sel : List Woningtype)
    (y : Int) :
    (∀ row ∈ melted_pos df sel y, row.startBouwGepland.isSome = true) ∧
    (melted_pos df sel y ≠ [] →
      (mean_year (melted_pos df sel y)).isSome = true) := by
  have h1 : ∀ row ∈ melted_pos df sel y, row.startBouwGepland.isSome = true := by
    intro row hrow
    rcases List.mem_filter.mp hrow with ⟨hm, -⟩
    rcases melt_mem_start _ _ row hm with ⟨r, hr, heq⟩
    rw [heq]
    exact filtered_df_isSome df y r hr
  refine ⟨h1, ?_⟩
  intro hne
  cases hm : melted_pos df sel y with
  | nil => exact absurd hm hne
  | cons row rest =>
      have hs := h1 row (hm ▸ List.mem_cons_self row rest)
      unfold mean_year
      cases hsv : row.startBouwGepland with
      | none => rw [hsv] at hs; simp at hs
      | some jj => simp [List.filterMap_cons, hsv]

/-- C10 witness: on a concrete one-record dataset the mean start year is
defined. -/
theorem c10_witness :
    (mean_year (melted_pos df5 woningtypes 2030)).isSome = true :=
  (c10_dates_nonnull df5 woningtypes 2030).2 (by decide)

theorem byValueDesc_total (a b : String × Int) :
    byValueDesc a b = true ∨ byValueDesc b a = true := by
  simp only [byValueDesc, decide_eq_true_eq]
  exact le_total b.2 a.2

theorem byValueDesc_trans (a b c : String × Int)
    (h1 : byValueDesc a b = true) (h2 : byValueDesc b c = true) :
    byValueDesc a c = true := by
  simp only [byValueDesc, decide_eq_true_eq] at h1 h2 ⊢
  exact le_trans h2 h1

/-- C7 (corrected): the top-10 neighborhood aggregate has at most ten
distinct neighborhoods, listed in descending order of grand total, and
every included neighborhood's grand total is at least every excluded one's;
however ties at the boundary are not broken by input order — the series
being sorted is already in neighborhood-name order from the groupby. -/
theorem c7_top10_amended (m : List LongRow) :
    (top_buurten m).length ≤ 10 ∧
    (top_buurten m).Nodup ∧
    (top_pairs m).Pairwise (fun a b => b.2 ≤ a.2) ∧
    (∀ p ∈ grand_totals m, ∀ q ∈ grand_totals m,
      p.1 ∈ top_buurten m → q.1 ∉ top_buurten m → q.2 ≤ p.2) := by
  have hperm := perm_sortLe byValueDesc (grand_totals m)
  have hnfst : ((grand_totals m).map Prod.fst).Nodup := nodup_groupbySum_fst _ _
  have hsortfst : ((sortLe byValueDesc (grand_totals m)).map Prod.fst).Nodup :=
    (hperm.map Prod.fst).symm.nodup hnfst
  have hpair := pairwise_sortLe byValueDesc byValueDesc_total byValueDesc_trans
    (grand_totals m)
  have htake : top_pairs m = (sortLe byValueDesc (grand_totals m)).take 10 := rfl
  refine ⟨?_, ?_, ?_, ?_⟩
  · rw [top_buurten, List.length_map, htake]
    exact List.length_take_le 10 _
  · rw [top_buurten]
    refine List.Nodup.sublist ?_ hsortfst
    rw [htake]
    exact (List.take_sublist 10 _).map Prod.fst
  · refine (List.Pairwise.sublist ?_ hpair).imp ?_
    · rw [htake]
      exact List.take_sublist 10 _
    · intro a b h
      simpa [byValueDesc] using h
  · intro p hp q hq hip hiq
    have hq_sp : q ∈ sortLe byValueDesc (grand_totals m) := hperm.mem_iff.mpr hq
    have hq_not_take : q ∉ top_pairs m := fun hqe =>
      hiq (List.mem_map_of_mem Prod.fst hqe)
    have hq_drop : q ∈ (sortLe byValueDesc (grand_totals m)).drop 10 := by
      have hq2 : q ∈ (sortLe byValueDesc (grand_totals m)).take 10 ++
          (sortLe byValueDesc (grand_totals m)).drop 10 := by
        rw [List.take_append_drop]
        exact hq_sp
      rcases List.mem_append.mp hq2 with h | h
      · exact absurd (htake ▸ h : q ∈ top_pairs m) hq_not_take
      · exact h
    rcases List.mem_map.mp hip with ⟨p', hp'_take, hp'1⟩
    have hp'_sp : p' ∈ sortLe byValueDesc (grand_totals m) :=
      (htake ▸ List.take_sublist 10 (sortLe byValueDesc (grand_totals m)) :
        (top_pairs m).Sublist _).subset hp'_take
    have hp'_gt : p' ∈ grand_totals m := hperm.mem_iff.mp hp'_sp
    have hpp' : p' = p := eq_of_fst_nodup (grand_totals m) hnfst hp'_gt hp hp'1
    have hsplit : List.Pairwise (fun x y => byValueDesc x y = true)
        ((sortLe byValueDesc (grand_totals m)).take 10 ++
         (sortLe byValueDesc (grand_totals m)).drop 10) := by
      rw [List.take_append_drop]
      exact hpair
    have hR := (List.pairwise_append.mp hsplit).2.2 p' (htake ▸ hp'_take) q hq_drop
    have hle : q.2 ≤ p'.2 := by simpa [byValueDesc] using hR
    rw [hpp'] at hle
    exact hle

/-- C7 counterexample: in `df0` the input order of the long-form set has
neighborhood `zz` before `aa`, the two tie on grand total at the top-10
boundary, yet the code's list keeps `aa` and drops `zz` — the opposite of
the claim's stable-input-order tie-breaking (shown by the claim-worded
ranking) — because the series entering the sort is in neighborhood-name
order. -/
theorem c7_counterexample :
    M0.map (fun r => r.buurtNaam) =
      ["zz", "k01", "k02", "k03", "k04", "k05", "k06", "k07", "k08", "k09", "aa"] ∧
    ("aa", (1 : Int)) ∈ grand_totals M0 ∧ ("zz", (1 : Int)) ∈ grand_totals M0 ∧
    "aa" ∈ top_buurten M0 ∧ "zz" ∉ top_buurten M0 ∧
    "zz" ∈ claim_top10 M0 ∧ "aa" ∉ claim_top10 M0 := by
  decide

/-- C7 witness: a dominant neighborhood of `df0` is included, the tied
`zz` is excluded, and the theorem yields the total comparison between
them. -/
theorem c7_witness :
    ("k01", (10 : Int)) ∈ grand_totals M0 ∧ ("zz", (1 : Int)) ∈ grand_totals M0 ∧
    "k01" ∈ top_buurten M0 ∧ "zz" ∉ top_buurten M0 ∧ ((1 : Int) ≤ 10) :=
  ⟨by decide, by decide, by decide, by decide,
   (c7_top10_amended M0).2.2.2 ("k01", (10 : Int)) (by decide)
     ("zz", (1 : Int)) (by decide) (by decide) (by decide)⟩

end Dashbouw
